import Mathlib

/-!
Verification of the geo-audit pipeline (src/geo-audit.py) against its
natural-language specification.  Each Python function relevant to the
claims is shallowly embedded as an executable Lean definition; numbers
are modelled as Nat / Int / Rat, network effects as explicit outcome
values, and the BeautifulSoup parse tree as an inductive node type.
-/

namespace GeoAudit

/-! ## Numeric helpers

Python `round(x, n)` rounds half to even.  The audit only rounds to one
or two decimal places, so we model `round(x, 1)` as
`roundHalfEven (10 * x) / 10` over the rationals (the source computes
with floats; ties at the half point do not arise in any claim). -/

def roundHalfEven (q : ℚ) : ℤ :=
  if q - (⌊q⌋ : ℚ) < 1/2 then ⌊q⌋
  else if 1/2 < q - (⌊q⌋ : ℚ) then ⌊q⌋ + 1
  else if ⌊q⌋ % 2 = 0 then ⌊q⌋ else ⌊q⌋ + 1

def round1 (q : ℚ) : ℚ := (roundHalfEven (10 * q) : ℚ) / 10

def round2 (q : ℚ) : ℚ := (roundHalfEven (100 * q) : ℚ) / 100

theorem roundHalfEven_bounds (q : ℚ) : (⌊q⌋ : ℤ) ≤ roundHalfEven q ∧ roundHalfEven q ≤ ⌈q⌉ := by
  unfold roundHalfEven
  have hfc : (⌊q⌋ : ℤ) ≤ ⌈q⌉ := Int.floor_le_ceil q
  split
  · exact ⟨le_refl _, hfc⟩
  · rename_i hge
    have hmid : (1 : ℚ)/2 ≤ q - (⌊q⌋ : ℚ) := le_of_not_lt hge
    have hflt : (⌊q⌋ : ℚ) < q := by linarith
    have hcl : (⌊q⌋ : ℚ) < (⌈q⌉ : ℚ) := lt_of_lt_of_le hflt (Int.le_ceil q)
    have hceil : (⌊q⌋ : ℤ) + 1 ≤ ⌈q⌉ := by exact_mod_cast hcl
    split
    · omega
    · split <;> omega

theorem round1_bounds (q : ℚ) (h0 : 0 ≤ q) (h1 : q ≤ 100) :
    0 ≤ round1 q ∧ round1 q ≤ 100 := by
  obtain ⟨hl, hu⟩ := roundHalfEven_bounds (10 * q)
  have hfl : (0 : ℤ) ≤ ⌊10 * q⌋ := Int.le_floor.mpr (by push_cast; linarith)
  have hcu : ⌈10 * q⌉ ≤ (1000 : ℤ) := Int.ceil_le.mpr (by push_cast; linarith)
  have hlo : (0 : ℤ) ≤ roundHalfEven (10 * q) := le_trans hfl hl
  have hhi : roundHalfEven (10 * q) ≤ 1000 := le_trans hu hcu
  unfold round1
  constructor
  · apply div_nonneg _ (by norm_num)
    exact_mod_cast hlo
  · rw [div_le_iff₀ (by norm_num)]
    have : (roundHalfEven (10 * q) : ℚ) ≤ 1000 := by exact_mod_cast hhi
    linarith

/-! ## Python string helpers

Kernel-evaluable char-list implementations of the Python string
methods the audited code uses.  strip / isWhitespace cover the ASCII
whitespace characters and lower() covers ASCII letters, which matches
Python on the texts these claims evaluate. -/

def pyStrip (s : String) : String :=
  String.mk (((s.toList.dropWhile Char.isWhitespace).reverse.dropWhile
    Char.isWhitespace).reverse)

def pyLower (s : String) : String := String.mk (s.toList.map Char.toLower)

def pyStartsWith (s q : String) : Bool := q.toList.isPrefixOf s.toList

def pyEndsWith (s q : String) : Bool := q.toList.reverse.isPrefixOf s.toList.reverse

/-- str.split() with no separator: maximal runs of non-whitespace. -/
def pyWordsAux : List Char → List Char → List String
  | [], acc => if acc.isEmpty then [] else [String.mk acc.reverse]
  | c :: rest, acc =>
    if c.isWhitespace then
      if acc.isEmpty then pyWordsAux rest []
      else String.mk acc.reverse :: pyWordsAux rest []
    else pyWordsAux rest (c :: acc)

def pyWords (s : String) : List String := pyWordsAux s.toList []

/-! ## Score aggregation (src/geo-audit.py, calculate_final_score, lines 610-629)

The Python function receives the per-module result dicts and extracts
one score from each; the main-content and E-E-A-T scores are collapsed
to a binary 100/50 value from the corresponding result records. -/

/-- Result record of extract_main_content (lines 440-466). -/
structure MCResult where
  has_semantic_main : Bool
  text_to_html_ratio : ℚ
  mc_length_chars : ℕ
deriving Repr, DecidableEq

/-- Result record of analyze_eeat_basic (lines 603-608). -/
structure EEATResult where
  has_bio : Bool
  stats_density : ℕ
deriving Repr, DecidableEq

/-- Weighted composite score, mirroring calculate_final_score.
Arguments follow the Python parameter order robots, struct, schema,
eeat, links, mc; the first four scores are the score_part /
hierarchy_score values taken from those module results. -/
def calculate_final_score (s_robots s_struct s_schema : ℚ) (eeat : EEATResult)
    (s_links : ℚ) (mc : MCResult) : ℚ :=
  let w_robots : ℚ := 15/100
  let w_struct : ℚ := 20/100
  let w_schema : ℚ := 20/100
  let w_links : ℚ := 15/100
  let w_mc : ℚ := 15/100
  let w_eeat : ℚ := 15/100
  let s_mc : ℚ := if mc.has_semantic_main ∧ mc.text_to_html_ratio > 10 then 100 else 50
  let s_eeat : ℚ := if eeat.has_bio ∧ eeat.stats_density > 5 then 100 else 50
  round1 (s_robots * w_robots + s_struct * w_struct + s_schema * w_schema +
          s_links * w_links + s_mc * w_mc + s_eeat * w_eeat)

/-- C1: for every combination of module results whose partial scores all
lie in [0,100], the composite score returned by calculate_final_score
(the weighted sum over the fixed weight vector
0.15/0.20/0.20/0.15/0.15/0.15, which sums to 1.0, rounded to one
decimal) lies within [0,100]. -/
theorem C1_composite_score_in_range
    (s_robots s_struct s_schema : ℚ) (eeat : EEATResult) (s_links : ℚ) (mc : MCResult)
    (hr0 : 0 ≤ s_robots) (hr1 : s_robots ≤ 100)
    (hs0 : 0 ≤ s_struct) (hs1 : s_struct ≤ 100)
    (hc0 : 0 ≤ s_schema) (hc1 : s_schema ≤ 100)
    (hl0 : 0 ≤ s_links) (hl1 : s_links ≤ 100) :
    0 ≤ calculate_final_score s_robots s_struct s_schema eeat s_links mc ∧
    calculate_final_score s_robots s_struct s_schema eeat s_links mc ≤ 100 := by
  unfold calculate_final_score
  set s_mc : ℚ := if mc.has_semantic_main ∧ mc.text_to_html_ratio > 10 then 100 else 50 with hmc
  set s_eeat : ℚ := if eeat.has_bio ∧ eeat.stats_density > 5 then 100 else 50 with heeat
  have hmcb : 50 ≤ s_mc ∧ s_mc ≤ 100 := by
    rw [hmc]; split <;> norm_num
  have heeatb : 50 ≤ s_eeat ∧ s_eeat ≤ 100 := by
    rw [heeat]; split <;> norm_num
  apply round1_bounds
  · obtain ⟨h1, _⟩ := hmcb; obtain ⟨h2, _⟩ := heeatb; linarith
  · obtain ⟨_, h1⟩ := hmcb; obtain ⟨_, h2⟩ := heeatb; linarith

/-- Witness for C1 at a concrete input (all free scores 100,
both binary modules at their high branch; the composite is then 100). -/
theorem C1_composite_score_in_range_witness :
    0 ≤ calculate_final_score 100 100 100 ⟨true, 6⟩ 100 ⟨true, 20, 30⟩ ∧
    calculate_final_score 100 100 100 ⟨true, 6⟩ 100 ⟨true, 20, 30⟩ ≤ 100 :=
  C1_composite_score_in_range 100 100 100 ⟨true, 6⟩ 100 ⟨true, 20, 30⟩
    (by norm_num) (by norm_num) (by norm_num) (by norm_num)
    (by norm_num) (by norm_num) (by norm_num) (by norm_num)

/-! ## Page fetch (fetch_url lines 120-127, get_page_content_async
lines 129-135, the abort gate of analyze_url lines 523-526)

The network is modelled as a map from the attempt index to the outcome
the corresponding HTTP GET would have: an exception (timeout,
connection failure) or a response with a status code and a body. -/

inductive FetchAttempt where
  | fetchRaise : FetchAttempt
  | resp (status : ℕ) (body : String) : FetchAttempt
deriving Repr, DecidableEq

/-- fetch_url performs exactly one GET and returns the response
whatever its status, or None on an exception.  The MAX_RETRIES
constant defined at line 48 is never used anywhere in the source. -/
def fetch_url (net : ℕ → FetchAttempt) : Option (ℕ × String) :=
  match net 0 with
  | .fetchRaise => none
  | .resp s b => some (s, b)

/-- get_page_content_async: the body is returned only when fetch_url
succeeded and the status is exactly 200. -/
def get_page_content_async (net : ℕ → FetchAttempt) : Option String :=
  match fetch_url net with
  | some (s, b) => if s = 200 then some b else none
  | none => none

/-- analyze_url lines 523-526: the run returns None (no report) when
the downloaded content is falsy, i.e. None or an empty byte string;
otherwise the full report dict is built and returned. -/
def pipelineProducesReport (net : ℕ → FetchAttempt) : Bool :=
  match get_page_content_async net with
  | some b => !(b = "")
  | none => false

/-- Modelled from the claim wording, for comparison only: a GET that on
failure (exception or non-2xx status) is retried once, succeeding iff
one of the first two attempts returns a 2xx status. -/
def attempt2xx : FetchAttempt → Option String
  | .fetchRaise => none
  | .resp s b => if 200 ≤ s ∧ s < 300 then some b else none

/-- Modelled from the claim wording, for comparison only (see
attempt2xx). -/
def specFetchWithRetry (net : ℕ → FetchAttempt) : Option String :=
  match attempt2xx (net 0) with
  | some b => some b
  | none => attempt2xx (net 1)

/-- A network whose first GET raises and whose second returns 200. -/
def netRaiseThenOk : ℕ → FetchAttempt :=
  fun n => if n = 0 then .fetchRaise else .resp 200 "ok"

/-- A network that always answers 204 No Content (a 2xx status). -/
def netAlways204 : ℕ → FetchAttempt := fun _ => .resp 204 "ok"

/-- C3 counterexample: the code performs no retry (a first attempt that
raises aborts the pipeline even though a retry would fetch the page
with status 200), and a 2xx status other than 200 also aborts; both
outcomes contradict the claimed fetch-with-one-retry / 2xx-success
protocol. -/
theorem C3_counterexample :
    (get_page_content_async netRaiseThenOk = none ∧
     specFetchWithRetry netRaiseThenOk = some "ok" ∧
     pipelineProducesReport netRaiseThenOk = false) ∧
    (get_page_content_async netAlways204 = none ∧
     specFetchWithRetry netAlways204 = some "ok" ∧
     pipelineProducesReport netAlways204 = false) :=
  ⟨⟨rfl, rfl, rfl⟩, ⟨rfl, rfl, rfl⟩⟩

/-- C3 (amended): the page fetch performs a single HTTP GET with a
timeout and no retry; the pipeline produces a report exactly when that
one GET returns status exactly 200 with a nonempty body, and aborts
with no report in every other case (exception, any status other than
200 — including other 2xx statuses — or an empty 200 body). -/
theorem C3_single_get_gate (net : ℕ → FetchAttempt) :
    (∀ b, get_page_content_async net = some b ↔ net 0 = .resp 200 b) ∧
    (pipelineProducesReport net = true ↔ ∃ b, b ≠ "" ∧ net 0 = .resp 200 b) := by
  have hmain : ∀ b, get_page_content_async net = some b ↔ net 0 = .resp 200 b := by
    intro b
    cases hn : net 0 with
    | fetchRaise => simp [get_page_content_async, fetch_url, hn]
    | resp s body =>
      by_cases hs : s = 200
      · subst hs; simp [get_page_content_async, fetch_url, hn]
      · simp [get_page_content_async, fetch_url, hn, hs]
  refine ⟨hmain, ?_⟩
  constructor
  · intro hp
    unfold pipelineProducesReport at hp
    rcases hg : get_page_content_async net with _ | b
    · rw [hg] at hp; simp at hp
    · rw [hg] at hp
      simp at hp
      exact ⟨b, hp, (hmain b).mp hg⟩
  · rintro ⟨b, hb, hnet⟩
    have hg : get_page_content_async net = some b := (hmain b).mpr hnet
    unfold pipelineProducesReport
    rw [hg]
    simp [hb]

/-! ## RobotsGate (check_robots_txt, lines 139-176)

The robots.txt fetch is a single GET modelled as one FetchAttempt.
Parsing the fetched text and evaluating robots-exclusion precedence is
done by the standard-library urllib.robotparser (an external
collaborator); its verdict for the parsed file and the audited URL is
abstracted as the oracle can_fetch, one Boolean per bot identifier. -/

/-- The fixed registry of AI-bot user agents (line 159-161). -/
def target_bots : List String :=
  ["GPTBot", "ClaudeBot", "PerplexityBot", "GoogleOther", "Applebot-Extended"]

/-- Either of the two dict shapes check_robots_txt returns: an error
dict with score_part 0, or a details dict with the per-bot verdicts. -/
inductive RobotsResult where
  | err (msg : String) (score_part : ℚ) : RobotsResult
  | ok (details : List (String × Bool)) (score_part : ℚ) : RobotsResult
deriving Repr, DecidableEq

/-- check_robots_txt: error result when the fetch raises or the status
is not 200; otherwise one can_fetch verdict per registered bot and
score_part = allowed / total * 100. -/
def check_robots_txt (fetch : FetchAttempt) (can_fetch : String → Bool) : RobotsResult :=
  match fetch with
  | .fetchRaise => .err "Could not fetch robots.txt" 0
  | .resp s _ =>
    if s = 200 then
      let results := target_bots.map (fun bot => (bot, can_fetch bot))
      let score_impact := (target_bots.filter (fun bot => can_fetch bot)).length
      .ok results ((score_impact : ℚ) / (target_bots.length : ℚ) * 100)
    else
      .err ("robots.txt returned " ++ toString s) 0

/-- C4: if fetching robots.txt fails or returns a non-200 status,
check_robots_txt returns a result carrying an error finding and
score_part = 0; otherwise it returns score_part = (number of the five
registered AI bots allowed to fetch the target URL / 5) * 100. -/
theorem C4_robots_error_and_score (fetch : FetchAttempt) (can_fetch : String → Bool) :
    (fetch = .fetchRaise →
      check_robots_txt fetch can_fetch = .err "Could not fetch robots.txt" 0) ∧
    (∀ s body, fetch = .resp s body → s ≠ 200 →
      check_robots_txt fetch can_fetch = .err ("robots.txt returned " ++ toString s) 0) ∧
    (∀ body, fetch = .resp 200 body →
      check_robots_txt fetch can_fetch =
        .ok (target_bots.map (fun bot => (bot, can_fetch bot)))
           (((target_bots.filter (fun bot => can_fetch bot)).length : ℚ) / 5 * 100)) := by
  refine ⟨?_, ?_, ?_⟩
  · rintro rfl; rfl
  · rintro s body rfl hs
    unfold check_robots_txt
    simp [hs]
  · rintro body rfl
    unfold check_robots_txt
    norm_num [target_bots]

/-! ## LinkAuditor (audit_links_and_authority, lines 337-389)

Every sampled link is probed by the nested check_link coroutine: a
HEAD request, and only when that raises, one GET retry.  A probe is
modelled by its outcome: an exception (including timeout) or a status
code.  The sample is modelled as the list of (HEAD outcome, GET
outcome) pairs for the probed links. -/

inductive ProbeOutcome where
  | probeRaise : ProbeOutcome
  | status (n : ℕ) : ProbeOutcome
deriving Repr, DecidableEq

/-- check_link (lines 367-378): broken (true) iff the HEAD response has
status at least 400, or the HEAD raised and the GET retry raised or had
status at least 400. -/
def check_link (head_probe get_probe : ProbeOutcome) : Bool :=
  match head_probe with
  | .status n => decide (400 ≤ n)
  | .probeRaise =>
    match get_probe with
    | .status m => decide (400 ≤ m)
    | .probeRaise => true

/-- The number of sampled links check_link classifies broken
(broken_links = sum(results), line 381). -/
def broken_links (probes : List (ProbeOutcome × ProbeOutcome)) : ℕ :=
  (probes.map (fun p => check_link p.1 p.2)).count true

/-- score_part of the link audit (line 388). -/
def link_score_part (probes : List (ProbeOutcome × ProbeOutcome)) : ℤ :=
  if broken_links probes = 0 then 100
  else max 0 (100 - 10 * (broken_links probes : ℤ))

/-- The broken-link condition exactly as the claim words it. -/
def brokenPerClaim (head_probe get_probe : ProbeOutcome) : Prop :=
  (head_probe = .probeRaise ∧
    (get_probe = .probeRaise ∨ ∃ m, get_probe = .status m ∧ 400 ≤ m)) ∨
  (∃ n, head_probe = .status n ∧ 400 ≤ n)

/-- C6: a sampled link is classified broken exactly when the HEAD probe
raises and the GET retry raises or returns status at least 400, or when
a probe that ran returned status at least 400; and score_part is 100
with zero broken links and max(0, 100 - 10 * broken) otherwise (the
latter formula in fact covers the zero case as well). -/
theorem C6_broken_links_and_score :
    (∀ head_probe get_probe, check_link head_probe get_probe = true ↔
      brokenPerClaim head_probe get_probe) ∧
    (∀ probes, link_score_part probes =
      if broken_links probes = 0 then 100
      else max 0 (100 - 10 * (broken_links probes : ℤ))) ∧
    (∀ probes, link_score_part probes = max 0 (100 - 10 * (broken_links probes : ℤ))) := by
  refine ⟨?_, fun _ => rfl, ?_⟩
  · intro h g
    cases h with
    | status n =>
      simp [check_link, brokenPerClaim]
    | probeRaise =>
      cases g with
      | status m => simp [check_link, brokenPerClaim]
      | probeRaise => simp [check_link, brokenPerClaim]
  · intro probes
    unfold link_score_part
    split
    · rename_i hz
      rw [hz]
      norm_num
    · rfl

/-! ## SchemaAnalyzer (analyze_schema_advanced, lines 264-333)

Each script tag of type application/ld+json whose string content is
nonempty either fails json.loads (malformed) or yields a JSON value.
JSON values are modelled inductively; object fields are kept as an
association list (json.loads already collapses duplicate keys, so the
lists are assumed key-unique and looked up by first match). -/

inductive Json where
  | null : Json
  | bool (b : Bool) : Json
  | num (n : ℤ) : Json
  | str (s : String) : Json
  | arr (items : List Json) : Json
  | obj (fields : List (String × Json)) : Json

/-- dict.get on the modelled object fields. -/
def lookupKey (fields : List (String × Json)) (k : String) : Option Json :=
  match fields with
  | [] => none
  | (k2, v) :: rest => if k2 = k then some v else lookupKey rest k

/-- Python truthiness of a JSON value (the code tests
`if not same_as`). -/
def jsonFalsy : Json → Bool
  | .null => true
  | .bool b => !b
  | .num n => decide (n = 0)
  | .str s => decide (s = "")
  | .arr l => l.isEmpty
  | .obj f => f.isEmpty

/-- The fixed target-type registry (line 272). -/
def target_schemas : List String :=
  ["Organization", "Person", "FAQPage", "Article", "Product", "BlogPosting", "NewsArticle"]

/-- The E-E-A-T validation of one recognised item (lines 293-313); the
quote characters inside the Python message strings are elided here. -/
def validateItem (t : String) (fields : List (String × Json)) : List String :=
  (if t = "Organization" ∨ t = "Person" then
    match lookupKey fields "sameAs" with
    | none => [t ++ " missing sameAs"]
    | some v => if jsonFalsy v then [t ++ " missing sameAs"] else []
   else []) ++
  (if t = "Article" ∨ t = "BlogPosting" ∨ t = "NewsArticle" then
    (match lookupKey fields "author" with
     | none => [t ++ " missing author"]
     | some (.obj afields) =>
       if (lookupKey afields "sameAs").isNone ∧ (lookupKey afields "url").isNone then
         [t ++ ".author missing sameAs or url"]
       else []
     | some _ => []) ++
    (if (lookupKey fields "dateModified").isNone then [t ++ " missing dateModified"] else [])
   else [])

/-- The @type of one item (lines 287-288): the value, the head of a
list value, missing when absent; an empty list value raises IndexError,
which the blanket handler turns into abandoning the block (none). -/
def typeOf (fields : List (String × Json)) : Option (Option Json) :=
  match lookupKey fields "@type" with
  | some (.arr []) => none
  | some (.arr (x :: _)) => some (some x)
  | some v => some (some v)
  | none => some none

/-- The per-item loop (lines 286-313).  A non-dict item raises
AttributeError at item.get, caught by the blanket except, which keeps
what was recorded so far and abandons the rest of the block. -/
def processItems : List Json → List String → List String → List String × List String
  | [], found, errs => (found, errs)
  | item :: rest, found, errs =>
    match item with
    | .obj fields =>
      match typeOf fields with
      | none => (found, errs)
      | some st =>
        match st with
        | some (.str t) =>
          if t ∈ target_schemas then
            processItems rest (found ++ [t]) (errs ++ validateItem t fields)
          else
            processItems rest found errs
        | _ => processItems rest found errs
    | _ => (found, errs)

/-- One script tag with nonempty string content: either malformed JSON
(json.JSONDecodeError) or a parsed document. -/
inductive SchemaBlock where
  | malformed : SchemaBlock
  | parsed (data : Json) : SchemaBlock

/-- The item list the loop iterates (lines 280-284): a top-level array
as is, a dict through its graph array when present else wrapped as a
singleton, anything else yields no items.  A graph value that is a dict
or a string is iterated by Python as its keys / characters; a
non-iterable graph value raises, and the block is skipped. -/
def itemsOf : Json → Option (List Json)
  | .arr l => some l
  | .obj fields =>
    match lookupKey fields "@graph" with
    | some (.arr l) => some l
    | some (.obj f2) => some (f2.map (fun kv => Json.str kv.1))
    | some (.str s) => some (s.toList.map (fun c => Json.str (String.mk [c])))
    | some _ => none
    | none => some [Json.obj fields]
  | _ => some []

/-- Processing of one block inside the script loop (lines 274-318). -/
def processBlock (acc : List String × List String) : SchemaBlock → List String × List String
  | .malformed => (acc.1, acc.2 ++ ["Invalid JSON-LD syntax"])
  | .parsed data =>
    match itemsOf data with
    | none => acc
    | some items => processItems items acc.1 acc.2

structure SchemaResult where
  found_types : List String
  eeat_errors : List String
  score_part : ℤ

/-- analyze_schema_advanced: collect found types and issues over all
blocks, deduplicate the types (list(set(...)) is modelled as an
order-preserving dedup; only membership is ever used), then score. -/
def analyze_schema_advanced (blocks : List SchemaBlock) : SchemaResult :=
  let acc := blocks.foldl processBlock ([], [])
  let found := acc.1.dedup
  let errs := acc.2
  let base : ℤ := if found.isEmpty then 0 else 60
  let base2 : ℤ := if "FAQPage" ∈ found then base + 10 else base
  let base3 : ℤ := if "Article" ∈ found ∨ "BlogPosting" ∈ found then base2 + 10 else base2
  let penalty : ℤ := (errs.length : ℤ) * 10
  ⟨found, errs, max 0 (min 100 (base3 - penalty))⟩

/-- The scoring formula exactly as the claim words it: the article
bonus also fires for NewsArticle.  For comparison only. -/
def claimSchemaScore (found errs : List String) : ℤ :=
  let base : ℤ := if found.isEmpty then 0 else 60
  let base2 : ℤ := if "FAQPage" ∈ found then base + 10 else base
  let base3 : ℤ :=
    if "Article" ∈ found ∨ "BlogPosting" ∈ found ∨ "NewsArticle" ∈ found then base2 + 10 else base2
  max 0 (min 100 (base3 - (errs.length : ℤ) * 10))

/-- A single valid NewsArticle block (author and dateModified present,
so no validation issue). -/
def newsArticleBlock : SchemaBlock :=
  .parsed (.obj [("@type", .str "NewsArticle"), ("author", .str "Ana"),
                 ("dateModified", .str "2024-01-01")])

/-- C5 counterexample: on a document whose only structured-data item is
a valid NewsArticle, the code scores 60 (NewsArticle earns no article
bonus at line 327) while the claimed formula gives 70. -/
theorem C5_counterexample :
    (analyze_schema_advanced [newsArticleBlock]).score_part = 60 ∧
    claimSchemaScore (analyze_schema_advanced [newsArticleBlock]).found_types
      (analyze_schema_advanced [newsArticleBlock]).eeat_errors = 70 ∧
    (analyze_schema_advanced [newsArticleBlock]).score_part ≠
      claimSchemaScore (analyze_schema_advanced [newsArticleBlock]).found_types
        (analyze_schema_advanced [newsArticleBlock]).eeat_errors := by
  refine ⟨?_, ?_, ?_⟩ <;> decide

/-- The scoring formula as the code computes it (the amended claim):
base 60 if any target type was found, +10 for FAQPage, +10 if Article
or BlogPosting is present (NewsArticle earns no article bonus), minus
10 per validation issue, clamped to [0,100]. -/
def amendedSchemaScore (found errs : List String) : ℤ :=
  let base : ℤ := if found.isEmpty then 0 else 60
  let base2 : ℤ := if "FAQPage" ∈ found then base + 10 else base
  let base3 : ℤ := if "Article" ∈ found ∨ "BlogPosting" ∈ found then base2 + 10 else base2
  max 0 (min 100 (base3 - (errs.length : ℤ) * 10))

/-- C5 (amended): for every set of structured-data blocks, score_part
equals base 60 if any target type was found, plus 10 for FAQPage
presence, plus 10 if Article or BlogPosting (not NewsArticle) is
present, minus 10 per validation issue, clamped to [0,100]; in
particular the score always lies in [0,100]. -/
theorem C5_schema_score_formula (blocks : List SchemaBlock) :
    (analyze_schema_advanced blocks).score_part =
      amendedSchemaScore (analyze_schema_advanced blocks).found_types
        (analyze_schema_advanced blocks).eeat_errors ∧
    0 ≤ (analyze_schema_advanced blocks).score_part ∧
    (analyze_schema_advanced blocks).score_part ≤ 100 := by
  refine ⟨rfl, ?_, ?_⟩
  · exact le_max_left 0 _
  · exact max_le (by norm_num) (min_le_left _ _)

/-! ## StructureAnalyzer (analyze_structure_and_readability, lines 180-258)

The module walks the ordered sequence of heading elements (soup
find_all over h1..h6).  A heading is modelled by its level, its
extracted text, and its chain of following sibling nodes (the
next_sibling walk of the capsule scan); a sibling is a bare string
(text node) or an element with a name and its extracted text.  The
Flesch readability fields (lines 246-258) are produced by the external
textstat collaborator and touch no claim, so they are left out of the
result record. -/

inductive SNode where
  | snStr (s : String) : SNode
  | snTag (name : String) (text : String) : SNode
deriving Repr, DecidableEq

structure Heading where
  lvl : ℕ
  text : String
  sibs : List SNode
deriving Repr, DecidableEq

/-- The single-H1 issue (lines 196-202). -/
def h1_issues (headers : List Heading) : List String :=
  let h1s := headers.filter (fun h => h.lvl = 1)
  if h1s.length = 1 then []
  else if h1s.length = 0 then ["Missing H1"]
  else ["Multiple H1s"]

/-- The header-jump walk (lines 205-214): a level rising by more than
one from the previous heading is an issue, except at the very first
heading (last_level = 0). -/
def jump_issues : ℕ → List Heading → List String
  | _, [] => []
  | last, h :: rest =>
    (if h.lvl > last + 1 ∧ last ≠ 0 then
      ["Header Jump: H" ++ toString last ++ " -> H" ++ toString h.lvl]
     else []) ++ jump_issues h.lvl rest

def hierarchy_issues_of (headers : List Heading) : List String :=
  if headers.isEmpty then ["No headers found"]
  else h1_issues headers ++ jump_issues 0 headers

/-- The +20 bonus a unique H1 adds to the initial score (line 198),
kept when neither the perfect-score nor the generic-penalty branch
overwrites it. -/
def h1_bonus (headers : List Heading) : ℤ :=
  if headers.isEmpty then 0
  else if (headers.filter (fun h => h.lvl = 1)).length = 1 then 20
  else 0

/-- Hierarchy scoring (lines 217-222): 100 with no issues; otherwise
max(40, 100 - 10 * issues) unless Missing H1 or Multiple H1s was
recorded, in which case the initial bonus (0 or 20) is kept. -/
def hierarchy_score_of (headers : List Heading) : ℤ :=
  let issues := hierarchy_issues_of headers
  if issues.isEmpty then 100
  else if "Missing H1" ∉ issues ∧ "Multiple H1s" ∉ issues then
    max 40 (100 - 10 * (issues.length : ℤ))
  else h1_bonus headers

/-- The fixed bilingual interrogative list (line 225). -/
def question_starters : List String :=
  ["como", "o que", "por que", "quando", "onde", "qual", "quem",
   "how", "what", "why", "when", "where", "which", "who"]

/-- Question-header test (lines 229-230): trimmed text ending in a
question mark, or whose lowercasing starts with one of the fixed
strings (a plain string-prefix test, no word boundary).  Char.toLower
only lowercases ASCII, which matches Python for the ASCII starters. -/
def is_question (text : String) : Bool :=
  let t := pyStrip text
  pyEndsWith t "?" || question_starters.any (fun q => pyStartsWith (pyLower t) q)

/-- The sibling scan of lines 235-239: walk next siblings while the
node is a bare string or an element outside the stop list, and return
the stopping element if any.  The inner p-break inside the Python loop
is unreachable, because p is itself in the stop list. -/
def scanSibs : List SNode → Option SNode
  | [] => none
  | .snStr _ :: rest => scanSibs rest
  | .snTag name txt :: rest =>
    if name ∈ ["p", "div", "section", "h1", "h2", "h3", "h4", "h5", "h6"] then
      some (.snTag name txt)
    else scanSibs rest

/-- Python str.split() word count: whitespace-separated nonempty
tokens. -/
def word_count (s : String) : ℕ := (pyWords s).length

/-- Capsule test after a question header (lines 241-244): the scan
stopped at a paragraph of 40 to 60 words. -/
def capsule_after (sibs : List SNode) : Bool :=
  match scanSibs sibs with
  | some (.snTag "p" txt) => decide (40 ≤ word_count txt ∧ word_count txt ≤ 60)
  | _ => false

def question_headers_count_of (headers : List Heading) : ℕ :=
  ((headers.filter (fun h => h.lvl = 2 ∨ h.lvl = 3)).filter
    (fun h => is_question h.text)).length

def answer_capsules_count_of (headers : List Heading) : ℕ :=
  ((headers.filter (fun h => h.lvl = 2 ∨ h.lvl = 3)).filter
    (fun h => is_question h.text && capsule_after h.sibs)).length

structure StructResult where
  hierarchy_score : ℤ
  hierarchy_issues : List String
  question_headers_count : ℕ
  answer_capsules_count : ℕ
deriving Repr, DecidableEq

def analyze_structure_and_readability (headers : List Heading) : StructResult :=
  ⟨hierarchy_score_of headers, hierarchy_issues_of headers,
   question_headers_count_of headers, answer_capsules_count_of headers⟩

/-- Stop condition of the scan as the claim describes it: the first
paragraph or heading/structural container among the siblings. -/
def isStopElem : SNode → Bool
  | .snStr _ => false
  | .snTag name _ => name ∈ ["p", "div", "section", "h1", "h2", "h3", "h4", "h5", "h6"]

/-- The capsule condition as the claim describes it: the first stop
element among the siblings (text nodes and other elements skipped) is a
paragraph whose word count lies in [40,60]. -/
def capsuleClaim (sibs : List SNode) : Bool :=
  match (sibs.filter isStopElem).head? with
  | some (.snTag "p" txt) => decide (40 ≤ word_count txt ∧ word_count txt ≤ 60)
  | _ => false

theorem scanSibs_eq_filter_head (sibs : List SNode) :
    scanSibs sibs = (sibs.filter isStopElem).head? := by
  induction sibs with
  | nil => rfl
  | cons n rest ih =>
    cases n with
    | snStr s => simpa [scanSibs, isStopElem, List.filter] using ih
    | snTag name txt =>
      by_cases hm : name ∈ ["p", "div", "section", "h1", "h2", "h3", "h4", "h5", "h6"]
      · simp [scanSibs, isStopElem, hm, List.filter]
      · simpa [scanSibs, isStopElem, hm, List.filter] using ih

theorem capsule_after_eq_claim (sibs : List SNode) :
    capsule_after sibs = capsuleClaim sibs := by
  unfold capsule_after capsuleClaim
  rw [scanSibs_eq_filter_head]

/-- C7: for every h2/h3 heading whose trimmed text ends in a question
mark or starts (case-insensitively) with one of the fixed interrogative
strings, the analyzer scans forward through following siblings,
skipping text nodes and non-structural elements, until the first
paragraph or the next heading/structural container, and counts one
answer capsule exactly when that scan stops at a paragraph whose word
count lies in [40,60]. -/
theorem C7_answer_capsules (headers : List Heading) :
    (analyze_structure_and_readability headers).answer_capsules_count =
      (headers.filter (fun h =>
        (decide (h.lvl = 2 ∨ h.lvl = 3)) && is_question h.text && capsuleClaim h.sibs)).length := by
  show answer_capsules_count_of headers = _
  unfold answer_capsules_count_of
  rw [List.filter_filter]
  congr 1
  apply List.filter_congr
  intro h _
  rw [capsule_after_eq_claim]
  cases hq : is_question h.text <;>
    cases hc : capsuleClaim h.sibs <;>
      cases hl : decide (h.lvl = 2 ∨ h.lvl = 3) <;> rfl

/-- C9: a document with no heading elements at all yields exactly the
one hierarchy issue No headers found and hierarchy_score 90 (the
generic max(40, 100 - 10 * issues) penalty applies since neither
Missing H1 nor Multiple H1s was recorded), while a document whose
headings lack an H1 scores 0, so a heading-free page scores strictly
higher. -/
theorem C9_headerless_scores_90 (d1 d2 : List Heading)
    (h1 : d1 = []) (h2 : d2 ≠ []) (h3 : ∀ h ∈ d2, h.lvl ≠ 1) :
    (analyze_structure_and_readability d1).hierarchy_issues = ["No headers found"] ∧
    (analyze_structure_and_readability d1).hierarchy_score = 90 ∧
    (analyze_structure_and_readability d2).hierarchy_score = 0 ∧
    (analyze_structure_and_readability d2).hierarchy_score <
      (analyze_structure_and_readability d1).hierarchy_score := by
  subst h1
  have hfilter : d2.filter (fun h => h.lvl = 1) = [] := by
    rw [List.filter_eq_nil_iff]
    intro a ha
    simpa using h3 a ha
  have hne : ¬ d2.isEmpty := by
    cases d2 with
    | nil => exact absurd rfl h2
    | cons a l => simp
  have hiss : hierarchy_issues_of d2 = "Missing H1" :: jump_issues 0 d2 := by
    unfold hierarchy_issues_of h1_issues
    rw [if_neg hne, hfilter]
    rfl
  have hscore2 : hierarchy_score_of d2 = 0 := by
    unfold hierarchy_score_of
    rw [hiss]
    have hmem : "Missing H1" ∈ "Missing H1" :: jump_issues 0 d2 := List.mem_cons_self _ _
    rw [if_neg (by simp), if_neg (by intro hcon; exact hcon.1 hmem)]
    unfold h1_bonus
    rw [if_neg hne, hfilter]
    simp
  refine ⟨by decide, by decide, hscore2, ?_⟩
  show hierarchy_score_of d2 < hierarchy_score_of []
  rw [hscore2]
  decide

/-- Witness for C9: the empty heading sequence against the single
heading sequence [h2]. -/
theorem C9_headerless_scores_90_witness :
    (analyze_structure_and_readability []).hierarchy_issues = ["No headers found"] ∧
    (analyze_structure_and_readability []).hierarchy_score = 90 ∧
    (analyze_structure_and_readability [⟨2, "t", []⟩]).hierarchy_score = 0 ∧
    (analyze_structure_and_readability [⟨2, "t", []⟩]).hierarchy_score <
      (analyze_structure_and_readability []).hierarchy_score :=
  C9_headerless_scores_90 [] [⟨2, "t", []⟩] rfl (by decide) (by decide)

/-! ## The parsed tree and ContentExtractor (extract_main_content,
lines 440-466)

The BeautifulSoup tree is modelled as a forest of nodes: bare strings
and named elements with children (attributes play no role in the
audited code paths).  tag.decompose() mutates the shared soup in place;
the mutation is modelled by returning the pruned forest as an explicit
output state. -/

inductive HNode where
  | htext (s : String) : HNode
  | helem (name : String) (children : List HNode) : HNode

/-- The boilerplate selector of line 443. -/
def boilerplate_tags : List String :=
  ["header", "footer", "nav", "aside", "script", "style", "iframe"]

/-! The effect of decomposing every boilerplate element: the element
and its whole subtree disappear from the forest (removeBoilerplateN
gives what one node leaves behind). -/
mutual

def removeBoilerplateN : HNode → List HNode
  | .htext s => [.htext s]
  | .helem n cs =>
    if n ∈ boilerplate_tags then [] else [.helem n (removeBoilerplate cs)]

def removeBoilerplate : List HNode → List HNode
  | [] => []
  | x :: rest => removeBoilerplateN x ++ removeBoilerplate rest

end

/-! All string nodes, in document order. -/
mutual

def textsN : HNode → List String
  | .htext s => [s]
  | .helem _ cs => texts cs

def texts : List HNode → List String
  | [] => []
  | x :: rest => textsN x ++ texts rest

end

/-- soup.get_text with separator a space and strip=True: each string
stripped, empties dropped, the rest joined by single spaces. -/
def get_text_sep_strip (doc : List HNode) : String :=
  String.intercalate " " (((texts doc).map pyStrip).filter (fun s => s ≠ ""))

/-- get_text(strip=True): stripped nonempty strings concatenated. -/
def get_text_strip (doc : List HNode) : String :=
  String.join (((texts doc).map pyStrip).filter (fun s => s ≠ ""))

/-! str(soup): serialized markup (the modelled nodes carry no
attributes). -/
mutual

def renderN : HNode → String
  | .htext s => s
  | .helem n cs => "<" ++ n ++ ">" ++ render cs ++ "</" ++ n ++ ">"

def render : List HNode → String
  | [] => ""
  | x :: rest => renderN x ++ render rest

end

/-! soup.find(name): depth-first, document order. -/
mutual

def findTagN (name : String) : HNode → Option HNode
  | .htext _ => none
  | .helem n cs => if n = name then some (.helem n cs) else findTag name cs

def findTag (name : String) : List HNode → Option HNode
  | [] => none
  | x :: rest =>
    match findTagN name x with
    | some t => some t
    | none => findTag name rest

end

/-- extract_main_content: prunes boilerplate from the shared soup (the
in-place decompose loop, returned here as the second component), finds
main else article, and computes the text-to-markup ratio over the
pruned serialization. -/
def extract_main_content (soup : List HNode) : MCResult × List HNode :=
  let soup2 := removeBoilerplate soup
  let main_tag :=
    match findTag "main" soup2 with
    | some t => some t
    | none => findTag "article" soup2
  let html_len := (render soup2).length
  let text_content :=
    match main_tag with
    | some (.helem _ cs) => get_text_strip cs
    | some (.htext s) => pyStrip s
    | none =>
      match findTag "body" soup2 with
      | some (.helem _ cs) => get_text_strip cs
      | _ => ""
  let mc_len : ℕ := text_content.length
  let ratio : ℚ := if html_len > 0 then ((mc_len : ℚ) / (html_len : ℚ)) * 100 else 0
  (⟨main_tag.isSome, round2 ratio, mc_len⟩, soup2)

/-! Whether a forest contains a boilerplate element at any depth. -/
mutual

def hasBoilerplateN : HNode → Bool
  | .htext _ => false
  | .helem n cs => decide (n ∈ boilerplate_tags) || hasBoilerplate cs

def hasBoilerplate : List HNode → Bool
  | [] => false
  | x :: rest => hasBoilerplateN x || hasBoilerplate rest

end

mutual

theorem removeBoilerplateN_id :
    ∀ x : HNode, hasBoilerplateN x = false → removeBoilerplateN x = [x]
  | .htext s, _ => rfl
  | .helem n cs, h => by
    have h2 : ¬ n ∈ boilerplate_tags ∧ hasBoilerplate cs = false := by
      simpa [hasBoilerplateN] using h
    simp [removeBoilerplateN, h2.1, removeBoilerplate_id cs h2.2]

theorem removeBoilerplate_id :
    ∀ l : List HNode, hasBoilerplate l = false → removeBoilerplate l = l
  | [], _ => rfl
  | x :: rest, h => by
    have h2 : hasBoilerplateN x = false ∧ hasBoilerplate rest = false := by
      simpa [hasBoilerplate] using h
    simp [removeBoilerplate, removeBoilerplateN_id x h2.1, removeBoilerplate_id rest h2.2]

end

/-! ## EntityExtractor (analyze_entities, lines 394-435)

HAS_SPACY is hard-wired to False at line 110, so the primary NER path
never runs and top_10 always comes from the capitalization-heuristic
fallback: the regular expression \b[A-Z][a-zà-ü]+\b over the page text,
a stop-word filter, lowercasing, and Counter(...).most_common(10).

The regular expression is embedded as a small scanner: a match is an
ASCII uppercase letter at a word boundary followed by a maximal run in
the class a-z / à-ü (the class is a raw codepoint range and so includes
the division sign), shortened if needed until a trailing word boundary
holds; scanning resumes after each match.  Word characters are letters,
digits and underscore; of the Latin-1 range only the multiplication and
division signs are excluded, matching Python on the Latin-1 texts the
tool analyzes. -/

def wordChar (c : Char) : Bool :=
  c.isAlpha || c.isDigit || c = '_' ||
  decide (0xC0 ≤ c.toNat ∧ c.toNat ≤ 0xFF ∧ c.toNat ≠ 0xD7 ∧ c.toNat ≠ 0xF7)

def upperAZ (c : Char) : Bool := decide (65 ≤ c.toNat ∧ c.toNat ≤ 90)

/-- Membership in the character class [a-zà-ü] (codepoints 97-122 and
224-252). -/
def lowerMatch (c : Char) : Bool :=
  decide (97 ≤ c.toNat ∧ c.toNat ≤ 122) || decide (224 ≤ c.toNat ∧ c.toNat ≤ 252)

/-- Greedy run of class characters and the remaining input. -/
def takeLowerRun : List Char → List Char × List Char
  | [] => ([], [])
  | c :: rest =>
    if lowerMatch c then
      let p := takeLowerRun rest
      (c :: p.1, p.2)
    else ([], c :: rest)

/-- A word boundary sits between the last matched character and the
following character (none at end of input) iff exactly one side is a
word character. -/
def boundaryOk (last : Char) (next : Option Char) : Bool :=
  match next with
  | none => wordChar last
  | some c => wordChar last != wordChar c

/-- Regex backtracking over the greedy run, given reversed: drop
trailing characters until the run (still nonempty) ends at a word
boundary, or fail. -/
def backtrackRev : List Char → List Char → Option (List Char × List Char)
  | [], _ => none
  | last :: revInit, rest =>
    if boundaryOk last rest.head? then some ((last :: revInit).reverse, rest)
    else backtrackRev revInit (last :: rest)

/-- The findall scan for \b[A-Z][a-zà-ü]+\b: left to right,
non-overlapping, resuming after each match; prevWord records whether
the character before the current position is a word character (false at
the start of the text).  Recursion is on a fuel counter only so the
scan evaluates by kernel reduction; every step consumes at least one
input character, so the fuel findallEntities supplies (length + 1) is
never exhausted. -/
def scanMatches : ℕ → List Char → Bool → List (List Char)
  | 0, _, _ => []
  | _ + 1, [], _ => []
  | fuel + 1, c :: rest, prevWord =>
    if upperAZ c && !prevWord then
      match backtrackRev (takeLowerRun rest).1.reverse (takeLowerRun rest).2 with
      | some (m, rest3) => (c :: m) :: scanMatches fuel rest3 (wordChar (m.getLastD c))
      | none => scanMatches fuel rest (wordChar c)
    else scanMatches fuel rest (wordChar c)

/-- re.findall of the fallback pattern over the text. -/
def findallEntities (text : String) : List String :=
  (scanMatches (text.length + 1) text.toList false).map (fun cs => String.mk cs)

/-- The sentence-initial stop-word set (line 417). -/
def stop_words : List String :=
  ["Para", "Com", "Em", "De", "Do", "Da", "Um", "Uma", "Os", "As", "Ao", "Na",
   "No", "Se", "Por", "Mas", "Que", "Como", "Quando", "Onde", "Quem", "Qual",
   "Sobre", "Entre", "Ate", "Desde"]

/-- The list comprehension of line 418: keep matches longer than two
characters and outside the stop-word set, lowercased. -/
def filteredTokens (text : String) : List String :=
  ((findallEntities text).filter
    (fun m => decide (2 < m.length) && !(stop_words.contains m))).map pyLower

/-- Counter(...): distinct keys in first-appearance order with their
multiplicities. -/
def counterItems (l : List String) : List (String × ℕ) :=
  (l.foldl (fun acc s => if acc.contains s then acc else acc ++ [s]) []).map
    (fun s => (s, l.count s))

/-- Stable descending insertion, mirroring the stable sort by count
inside Counter.most_common. -/
def insertDesc : List (String × ℕ) → String × ℕ → List (String × ℕ)
  | [], p => [p]
  | q :: t, p => if q.2 < p.2 then p :: q :: t else q :: insertDesc t p

def most_common (l : List (String × ℕ)) (n : ℕ) : List (String × ℕ) :=
  (l.foldl insertDesc []).take n

/-- The dynamic type of the topic_relevance field: the string N/A when
no topic was detected, a Boolean otherwise. -/
inductive Relevance where
  | na : Relevance
  | answer (b : Bool) : Relevance
deriving Repr, DecidableEq

/-- target_topic.lower().split() of line 424. -/
def topic_tokens (topic : String) : List String := pyWords (pyLower topic)

/-- Python substring membership (t in ent). -/
def listSub (n : List Char) : List Char → Bool
  | [] => n.isEmpty
  | c :: t => n.isPrefixOf (c :: t) || listSub n t

def str_contains (haystack needle : String) : Bool :=
  listSub needle.toList haystack.toList

/-- The relevance verdict of lines 422-433: the string N/A for a falsy
topic, otherwise true iff some topic token is a substring of some
retained entity. -/
def topic_relevance (target_topic : String) (top_10 : List (String × ℕ)) : Relevance :=
  if target_topic = "" then .na
  else .answer (top_10.any (fun p => (topic_tokens target_topic).any
    (fun t => str_contains p.1 t)))

/-- analyze_entities (fallback branch, the one that runs): text is the
whole-soup get_text with space separator and strip. -/
def analyze_entities (soup : List HNode) (target_topic : String) :
    List (String × ℕ) × Relevance :=
  let text := get_text_sep_strip soup
  let top_10 := most_common (counterItems (filteredTokens text)) 10
  (top_10, topic_relevance target_topic top_10)

/-- The test text of the specification. -/
def mariaText : String := "Maria visitou o Brasil. Maria adorou o Brasil."

/-- C8: with the primary NER method unavailable (HAS_SPACY is
hard-wired False), the fallback entity extractor applied to the text
about Maria and Brasil returns a ranked list containing (maria, 2) and
(brasil, 2) and containing none of the sentence-initial stop words,
neither as written nor lowercased. -/
theorem C8_fallback_maria_brasil :
    ("maria", 2) ∈ (analyze_entities [.htext mariaText] "").1 ∧
    ("brasil", 2) ∈ (analyze_entities [.htext mariaText] "").1 ∧
    ∀ p ∈ (analyze_entities [.htext mariaText] "").1,
      p.1 ∉ stop_words ∧ p.1 ∉ stop_words.map pyLower := by
  decide

/-- C10: with an empty detected topic the module returns the N/A
string rather than a Boolean; for a nonempty topic it returns a
Boolean, true iff some whitespace-separated lowercase topic token
occurs as a substring of some retained entity string. -/
theorem C10_topic_relevance_shape (soup : List HNode) (topic : String) (hne : topic ≠ "") :
    (analyze_entities soup "").2 = Relevance.na ∧
    ∃ b : Bool, (analyze_entities soup topic).2 = Relevance.answer b ∧
      (b = true ↔ ∃ p ∈ (analyze_entities soup topic).1,
        ∃ t ∈ topic_tokens topic, str_contains p.1 t = true) := by
  constructor
  · rfl
  · have h2 : (analyze_entities soup topic).2 =
        Relevance.answer ((analyze_entities soup topic).1.any
          (fun p => (topic_tokens topic).any (fun t => str_contains p.1 t))) := by
      show topic_relevance topic _ = _
      unfold topic_relevance
      rw [if_neg hne]
      rfl
    refine ⟨_, h2, ?_⟩
    simp [List.any_eq_true]

/-- Witness for C10 at a concrete soup and the concrete nonempty topic
Brasil. -/
theorem C10_topic_relevance_shape_witness :
    (analyze_entities [.htext mariaText] "").2 = Relevance.na ∧
    ∃ b : Bool, (analyze_entities [.htext mariaText] "Brasil").2 = Relevance.answer b ∧
      (b = true ↔ ∃ p ∈ (analyze_entities [.htext mariaText] "Brasil").1,
        ∃ t ∈ topic_tokens "Brasil", str_contains p.1 t = true) :=
  C10_topic_relevance_shape [.htext mariaText] "Brasil" (by decide)

/-! ## C2: module order and tree mutation -/

/-- A document with boilerplate: a nav element full of entity mentions
next to the main paragraph. -/
def exDoc : List HNode :=
  [.helem "nav" [.htext "Brasil Brasil Brasil"], .helem "p" [.htext "Maria viu"]]

/-- C2 counterexample: extract_main_content decomposes boilerplate
elements of the shared parsed tree in place, so analyze_entities
returns a different ranked entity list when run after it than when run
before it on the same fetched document — module order does affect a
module result. -/
theorem C2_counterexample :
    (analyze_entities exDoc "").1 = [("brasil", 3), ("maria", 1)] ∧
    (analyze_entities (extract_main_content exDoc).2 "").1 = [("maria", 1)] ∧
    (analyze_entities exDoc "").1 ≠ (analyze_entities (extract_main_content exDoc).2 "").1 := by
  refine ⟨?_, ?_, ?_⟩ <;> decide

/-- C2 (amended): extract_main_content is the one module that mutates
the shared parsed tree — it removes boilerplate containers (header,
footer, nav, aside, script, style, iframe) in place, visibly to the
modules analyze_url runs after it; on a document containing no
boilerplate element the tree is left unchanged and the entity module
returns the same result whether it runs before or after
extract_main_content. -/
theorem C2_no_boilerplate_order_independent (doc : List HNode)
    (h : hasBoilerplate doc = false) :
    (extract_main_content doc).2 = doc ∧
    ∀ topic, analyze_entities (extract_main_content doc).2 topic =
      analyze_entities doc topic := by
  have h1 : (extract_main_content doc).2 = doc := by
    show removeBoilerplate doc = doc
    exact removeBoilerplate_id doc h
  exact ⟨h1, fun topic => by rw [h1]⟩

/-- Witness for C2 (amended) at a concrete boilerplate-free document. -/
theorem C2_no_boilerplate_order_independent_witness :
    (extract_main_content [.helem "p" [.htext "Maria"]]).2 = [.helem "p" [.htext "Maria"]] ∧
    ∀ topic, analyze_entities (extract_main_content [.helem "p" [.htext "Maria"]]).2 topic =
      analyze_entities [.helem "p" [.htext "Maria"]] topic :=
  C2_no_boilerplate_order_independent [.helem "p" [.htext "Maria"]] (by decide)

end GeoAudit
